import Mathlib

/-!
Shallow embedding of `src/projectweek2.ino` (RFM69HCW receiver/transmitter
sketch).  The sketch is straight-line glue code over two hardware driver
libraries; we model each driver call and each pin operation as an *event*
and each function of the sketch as the finite list of events it emits,
parameterized by the results the environment returns (display.begin result,
button level, rf69.init result, frame availability, recv result, RSSI).

Infinite loops (`for(;;)`) are modeled by an `Outcome`: either the function
returns normally, or it diverges after its emitted trace, repeating a given
cycle of events forever.
-/

/-- Pins named in the sketch (the `#define`d board pins that are used). -/
inductive Pin where
  | RED_LED    -- A3, radio lock-out indicator
  | GRN_LED    -- A2, radio connection / packet arrival
  | BI_LEDA    -- A7
  | BI_LEDB    -- D3, error flash in the receive loop
  | PW_BUTA    -- A0, main user button (interlock)
  | RFM69_RST  -- D8, radio reset
deriving DecidableEq, Repr

/-- The two pin modes the sketch uses with `pinMode`. -/
inductive PinModeV where
  | OUTPUT
  | INPUT_PULLUP
deriving DecidableEq, Repr

/-- Modem configuration constants of the RadioHead driver used by the sketch. -/
inductive ModemConfigChoice where
  | GFSK_Rb250Fd250
deriving DecidableEq, Repr

/-- One observable action of the sketch: a driver-library call or a pin/serial
operation, with the arguments the sketch passes (and, for calls that return a
value the sketch consumes, the value the environment returned). -/
inductive Event where
  | displayBegin (ok : Bool)                    -- display.begin(SSD1306_SWITCHCAPVCC, 0x3C)
  | displayClear                                -- display.clearDisplay()
  | displayShow                                 -- display.display()
  | setCursor (x y : Int)                       -- display.setCursor
  | setTextSize (n : Nat)                       -- display.setTextSize
  | setTextColor (c : Nat)                      -- display.setTextColor
  | displayPrintStr (s : String)                -- display.print(string)
  | displayPrintInt (n : Int)                   -- display.print(int)
  | displayPrintlnStr (s : String)              -- display.println(string)
  | fillRect (x y w h : Int) (c : Nat)          -- display.fillRect
  | drawRect (x y w h : Int) (c : Nat)          -- display.drawRect
  | pinMode (p : Pin) (m : PinModeV)
  | digitalWrite (p : Pin) (high : Bool)
  | digitalRead (p : Pin) (high : Bool)
  | analogWrite (p : Pin) (v : Nat)
  | delay (ms : Nat)
  | serialBegin (baud : Nat)                    -- Serial.begin
  | serialPrintln (n : Int)                     -- Serial.println(int)
  | rfInit (ok : Bool)                          -- rf69.init()
  | setFrequency (mhz : Int)                    -- rf69.setFrequency (868.00 is exact, kept as an integer of MHz)
  | setTxPower (p : Int) (ishighpower : Bool)   -- rf69.setTxPower
  | setModemConfig (m : ModemConfigChoice)      -- rf69.setModemConfig
  | setEncryptionKey (key : List Nat)           -- rf69.setEncryptionKey
  | rfAvailable (b : Bool)                      -- rf69.available()
  | rfRecv (ok : Bool)                          -- rf69.recv(buf, &len)
  | lastRssi (v : Int)                          -- rf69.lastRssi()
  | rfSend (s : String) (len : Nat)             -- rf69.send(data, sizeof(data))
  | waitPacketSent                              -- rf69.waitPacketSent()
deriving DecidableEq, Repr

/-- How a sketch function ends: returning normally, or spinning forever in an
infinite loop that repeats `cycle` after the emitted trace. -/
inductive Outcome where
  | completed
  | halted (cycle : List Event)
deriving DecidableEq, Repr

/-- `#define LED_LOW 10`. -/
def LED_LOW : Nat := 10

/-- `#define LED_HIGH 60`. -/
def LED_HIGH : Nat := 60

/-- `SMOL_OLED` is defined, so `#define SCREEN_WIDTH 96`. -/
def SCREEN_WIDTH : Int := 96

/-- `SMOL_OLED` is defined, so `#define SCREEN_HEIGHT 16`. -/
def SCREEN_HEIGHT : Int := 16

/-- `SSD1306_WHITE` drawing colour constant of the display driver. -/
def SSD1306_WHITE : Nat := 1

/-- `#define RF69_FREQ 868.00` (MHz; the value is an exact integer). -/
def RF69_FREQ : Int := 868

/-- The environment results consumed by `setup`. -/
structure Env where
  displayBeginOk : Bool  -- what display.begin returns
  butA_high : Bool       -- what digitalRead(PW_BUTA) returns (true = HIGH)
  rf69InitOk : Bool      -- what rf69.init() returns
deriving DecidableEq, Repr

/-- The red-LED flashing cycle of the interlock's infinite loop. -/
def interlockCycle : List Event :=
  [ .digitalWrite .RED_LED true, .delay 250,
    .digitalWrite .RED_LED false, .delay 250 ]

/-- The 16-byte encryption key literal of the sketch. -/
def rf69Key : List Nat :=
  [0x01, 0x02, 0x03, 0x04, 0x05, 0x06, 0x07, 0x08,
   0x01, 0x02, 0x03, 0x04, 0x05, 0x06, 0x07, 0x08]

/-- Events of `setup` up to and including the interlock read, on the path where
`display.begin` succeeded (lines 69-96 of the sketch). -/
def setupPre (env : Env) : List Event :=
  [ .displayBegin true, .displayClear, .displayShow,
    .pinMode .RED_LED .OUTPUT, .pinMode .GRN_LED .OUTPUT,
    .pinMode .BI_LEDA .OUTPUT, .pinMode .BI_LEDB .OUTPUT,
    .pinMode .PW_BUTA .INPUT_PULLUP, .pinMode .RFM69_RST .OUTPUT,
    .digitalWrite .GRN_LED false, .digitalWrite .RED_LED false,
    .digitalWrite .BI_LEDA false, .digitalWrite .BI_LEDB false,
    .digitalWrite .RFM69_RST false,
    .digitalRead .PW_BUTA env.butA_high ]

/-- `setup()` of the sketch (lines 66-145): the trace of events it emits and
whether it returns or diverges. -/
def setup (env : Env) : List Event × Outcome :=
  if !env.displayBeginOk then
    ([.displayBegin false], .halted [])
  else if !env.butA_high then
    (setupPre env ++
     [ .displayClear, .setCursor 0 (SCREEN_HEIGHT / 2), .setTextSize 1,
       .setTextColor SSD1306_WHITE, .displayPrintlnStr "Radio DISABLED",
       .displayShow ],
     .halted interlockCycle)
  else
    (setupPre env ++
     [ .serialBegin 115200, .delay 1000,
       .digitalWrite .GRN_LED false,
       .rfInit env.rf69InitOk ] ++
     (if env.rf69InitOk then [Event.analogWrite .GRN_LED LED_LOW] else []) ++
     [ .setFrequency RF69_FREQ,
       .setTxPower (-2) true,
       .setModemConfig .GFSK_Rb250Fd250,
       .setEncryptionKey rf69Key ],
     .completed)

/-- The Arduino `map` function on `long`s; C++ `/` on signed integers truncates
toward zero, which is `Int.div`. -/
def arduinoMap (x in_min in_max out_min out_max : Int) : Int :=
  Int.tdiv ((x - in_min) * (out_max - out_min)) (in_max - in_min) + out_min

/-- The bar width computed at line 150 of the sketch. -/
def barwidth (rssi_val : Int) : Int :=
  arduinoMap rssi_val (-100) (-20) 0 SCREEN_WIDTH

/-- `display_rssi(int rssi_val)` (lines 147-176), with the `SMOL_OLED` branch. -/
def display_rssi (rssi_val : Int) : List Event :=
  [ .displayClear,
    .fillRect 0 0 (barwidth rssi_val) 6 SSD1306_WHITE,
    .drawRect 0 0 SCREEN_WIDTH 6 SSD1306_WHITE,
    .setCursor 0 9,
    .setTextSize 1,
    .setTextColor SSD1306_WHITE,
    .displayPrintStr "RSSI: ",
    .displayPrintInt rssi_val,
    .displayPrintlnStr " dBm",
    .displayShow ]

/-- The environment results consumed by one iteration of the receive loop. -/
structure LoopEnv where
  available : Bool  -- what rf69.available() returns
  recvOk : Bool     -- what rf69.recv(buf, &len) returns
  rssi : Int        -- what rf69.lastRssi() returns
deriving DecidableEq, Repr

/-- `loop_receiver()` (lines 179-228): one iteration of the receive loop. -/
def loop_receiver (env : LoopEnv) : List Event :=
  if env.available then
    if env.recvOk then
      [ .rfAvailable true, .rfRecv true,
        .analogWrite .GRN_LED LED_HIGH,
        .lastRssi env.rssi,
        .serialPrintln env.rssi ] ++
      display_rssi env.rssi ++
      [ .delay 50, .analogWrite .GRN_LED LED_LOW ]
    else
      [ .rfAvailable true, .rfRecv false,
        .digitalWrite .BI_LEDB true, .delay 50, .digitalWrite .BI_LEDB false ]
  else
    [ .rfAvailable false ]

/-- `loop_transmitter()` (lines 230-236); `sizeof(data)` counts the NUL, 26. -/
def loop_transmitter : List Event :=
  [ .rfSend "Welcome to Project Week 2" 26, .waitPacketSent, .delay 20 ]

/-- `loop()` (lines 238-242): the transmitter call is commented out. -/
def loop (env : LoopEnv) : List Event :=
  loop_receiver env

/-- Whether an event is one of the five radio operations of the claims:
`rf69.init`, `setFrequency`, `setTxPower`, `setModemConfig`, `setEncryptionKey`. -/
def isRadioSetupOp : Event → Bool
  | .rfInit _ => true
  | .setFrequency _ => true
  | .setTxPower _ _ => true
  | .setModemConfig _ => true
  | .setEncryptionKey _ => true
  | _ => false

/-- Whether an event is any display-driver operation. -/
def isDisplayOp : Event → Bool
  | .displayBegin _ => true
  | .displayClear => true
  | .displayShow => true
  | .setCursor _ _ => true
  | .setTextSize _ => true
  | .setTextColor _ => true
  | .displayPrintStr _ => true
  | .displayPrintInt _ => true
  | .displayPrintlnStr _ => true
  | .fillRect _ _ _ _ _ => true
  | .drawRect _ _ _ _ _ => true
  | _ => false

/-- Whether an event is a serial-port operation. -/
def isSerialOp : Event → Bool
  | .serialBegin _ => true
  | .serialPrintln _ => true
  | _ => false

/-- Whether an event is an `analogWrite` (the green-LED PWM brightness cue). -/
def isAnalogWriteOp : Event → Bool
  | .analogWrite _ _ => true
  | _ => false

/-- Whether an event is a pin, LED, interlock-read, radio or serial operation
(everything C10 says never happens when `display.begin` fails). -/
def isPinRadioOrSerialOp : Event → Bool
  | .pinMode _ _ => true
  | .digitalWrite _ _ => true
  | .digitalRead _ _ => true
  | .analogWrite _ _ => true
  | .serialBegin _ => true
  | e => isRadioSetupOp e

/-- Whether an event is an operation only `loop_transmitter` performs. -/
def isTransmitOp : Event → Bool
  | .rfSend _ _ => true
  | .waitPacketSent => true
  | _ => false

/-- Index of the first event of a trace satisfying a predicate. -/
def firstIdx (p : Event → Bool) (tr : List Event) : Option Nat :=
  tr.findIdx? p

/-- Strict order on optional indices: both present and the first is smaller. -/
def optLt : Option Nat → Option Nat → Bool
  | some a, some b => decide (a < b)
  | _, _ => false

/-- Whether an event is a `pinMode` call. -/
def isPinModeOp : Event → Bool
  | .pinMode _ _ => true
  | _ => false

/-- Whether an event is the interlock read of the main user button. -/
def isInterlockRead : Event → Bool
  | .digitalRead .PW_BUTA _ => true
  | _ => false

/-- Whether an event is the display initialization call. -/
def isDisplayInitOp : Event → Bool
  | .displayBegin _ => true
  | _ => false

/-- Whether an event is the serial-channel initialization call. -/
def isSerialInitOp : Event → Bool
  | .serialBegin _ => true
  | _ => false

/-- Whether an event is the `rf69.init()` call. -/
def isRfInitOp : Event → Bool
  | .rfInit _ => true
  | _ => false

/-- Whether an event is the `rf69.setFrequency` call. -/
def isSetFreqOp : Event → Bool
  | .setFrequency _ => true
  | _ => false

/-- Whether an event is the `rf69.setTxPower` call. -/
def isSetTxPowerOp : Event → Bool
  | .setTxPower _ _ => true
  | _ => false

/-- Whether an event is the `rf69.setModemConfig` call. -/
def isSetModemOp : Event → Bool
  | .setModemConfig _ => true
  | _ => false

/-- Whether an event is the `rf69.setEncryptionKey` call. -/
def isSetKeyOp : Event → Bool
  | .setEncryptionKey _ => true
  | _ => false

/-- Whether an event is the `rf69.lastRssi()` read. -/
def isLastRssiOp : Event → Bool
  | .lastRssi _ => true
  | _ => false

/-- Whether an event is a `Serial.println` of an integer. -/
def isSerialPrintlnOp : Event → Bool
  | .serialPrintln _ => true
  | _ => false

/-- Whether an event is a `display.print` of an integer. -/
def isDisplayPrintIntOp : Event → Bool
  | .displayPrintInt _ => true
  | _ => false

/-- Whether an event is a successful `rf69.recv`. -/
def isRecvOkOp : Event → Bool
  | .rfRecv true => true
  | _ => false

/-- The startup stage order asserted by the spec sentence behind C3: output
pins first, then the interlock, then the display, then the radio, then the
serial channel. -/
def claimedStartupOrder (tr : List Event) : Bool :=
  optLt (firstIdx isPinModeOp tr) (firstIdx isInterlockRead tr) &&
  optLt (firstIdx isInterlockRead tr) (firstIdx isDisplayInitOp tr) &&
  optLt (firstIdx isDisplayInitOp tr) (firstIdx isRfInitOp tr) &&
  optLt (firstIdx isRfInitOp tr) (firstIdx isSerialInitOp tr)

/-- C1: if the main user button (PW_BUTA) reads LOW during the startup
interlock check, the device writes "Radio DISABLED" to the display and then
diverges in an infinite loop toggling the red LED with 250 ms delays, and no
radio operation (init, setFrequency, setTxPower, setModemConfig,
setEncryptionKey) is ever performed, neither in the emitted trace nor in the
forever-repeated cycle. -/
theorem c1_interlock_disables_radio (env : Env)
    (h1 : env.displayBeginOk = true) (h2 : env.butA_high = false) :
    (setup env).2 = Outcome.halted interlockCycle ∧
    Event.displayPrintlnStr "Radio DISABLED" ∈ (setup env).1 ∧
    (setup env).1.all (fun e => !(isRadioSetupOp e)) = true ∧
    interlockCycle.all (fun e => !(isRadioSetupOp e)) = true := by
  rcases env with ⟨d, b, r⟩
  cases d <;> cases b <;> cases r <;>
    first
      | decide
      | exact Bool.noConfusion h1
      | exact Bool.noConfusion h2

/-- Witness for C1 at the concrete environment where the display starts and
the button reads LOW. -/
theorem c1_witness :
    (setup ⟨true, false, true⟩).2 = Outcome.halted interlockCycle ∧
    Event.displayPrintlnStr "Radio DISABLED" ∈ (setup ⟨true, false, true⟩).1 ∧
    (setup ⟨true, false, true⟩).1.all (fun e => !(isRadioSetupOp e)) = true ∧
    interlockCycle.all (fun e => !(isRadioSetupOp e)) = true :=
  c1_interlock_disables_radio ⟨true, false, true⟩ rfl rfl

/-- C2: in every loop iteration where a frame is available and decodes
successfully, the trace is exactly: brighten the green LED to PWM 60, read the
RSSI of the frame, print it to serial, redraw the display (whose events
include the bar-graph fillRect and the numeric value), wait 50 ms, and dim the
green LED back to PWM 10. -/
theorem c2_good_frame_sequence (env : LoopEnv)
    (h1 : env.available = true) (h2 : env.recvOk = true) :
    loop_receiver env =
      [ Event.rfAvailable true, Event.rfRecv true,
        Event.analogWrite Pin.GRN_LED 60,
        Event.lastRssi env.rssi,
        Event.serialPrintln env.rssi ] ++
      display_rssi env.rssi ++
      [ Event.delay 50, Event.analogWrite Pin.GRN_LED 10 ] ∧
    Event.fillRect 0 0 (barwidth env.rssi) 6 SSD1306_WHITE ∈ display_rssi env.rssi ∧
    Event.displayPrintInt env.rssi ∈ display_rssi env.rssi := by
  rcases env with ⟨a, rc, rssi⟩
  cases a <;> cases rc <;>
    first
      | exact Bool.noConfusion h1
      | exact Bool.noConfusion h2
      | exact ⟨rfl, by simp [display_rssi], by simp [display_rssi]⟩

/-- Witness for C2 at a concrete environment with RSSI -42. -/
theorem c2_witness :
    loop_receiver ⟨true, true, -42⟩ =
      [ Event.rfAvailable true, Event.rfRecv true,
        Event.analogWrite Pin.GRN_LED 60,
        Event.lastRssi (-42),
        Event.serialPrintln (-42) ] ++
      display_rssi (-42) ++
      [ Event.delay 50, Event.analogWrite Pin.GRN_LED 10 ] ∧
    Event.fillRect 0 0 (barwidth (-42)) 6 SSD1306_WHITE ∈ display_rssi (-42) ∧
    Event.displayPrintInt (-42) ∈ display_rssi (-42) :=
  c2_good_frame_sequence ⟨true, true, -42⟩ rfl rfl

/-- C3 counterexample: on the concrete startup run where the display starts,
the button reads HIGH and the radio initializes, the stage order claimed by
the spec (pins, then interlock, then display, then radio, then serial) is
false: the sketch initializes the display before configuring any pin, and
opens the serial channel before any radio call. -/
theorem c3_counterexample :
    claimedStartupOrder (setup ⟨true, true, true⟩).1 = false := by
  decide

/-- C3 amended: during startup the stages actually run in this order: first
initialize the display, then configure the output pins, then perform the
button-gated interlock check, then open the serial debug channel, and then
initialize the radio (whose parameters are then configured, see C5). -/
theorem c3_startup_order (env : Env)
    (h1 : env.displayBeginOk = true) (h2 : env.butA_high = true) :
    (optLt (firstIdx isDisplayInitOp (setup env).1) (firstIdx isPinModeOp (setup env).1) &&
     optLt (firstIdx isPinModeOp (setup env).1) (firstIdx isInterlockRead (setup env).1) &&
     optLt (firstIdx isInterlockRead (setup env).1) (firstIdx isSerialInitOp (setup env).1) &&
     optLt (firstIdx isSerialInitOp (setup env).1) (firstIdx isRfInitOp (setup env).1)) = true := by
  rcases env with ⟨d, b, r⟩
  cases d <;> cases b <;> cases r <;>
    first
      | decide
      | exact Bool.noConfusion h1
      | exact Bool.noConfusion h2

/-- Witness for the amended C3 at a concrete environment. -/
theorem c3_witness :
    (optLt (firstIdx isDisplayInitOp (setup ⟨true, true, true⟩).1) (firstIdx isPinModeOp (setup ⟨true, true, true⟩).1) &&
     optLt (firstIdx isPinModeOp (setup ⟨true, true, true⟩).1) (firstIdx isInterlockRead (setup ⟨true, true, true⟩).1) &&
     optLt (firstIdx isInterlockRead (setup ⟨true, true, true⟩).1) (firstIdx isSerialInitOp (setup ⟨true, true, true⟩).1) &&
     optLt (firstIdx isSerialInitOp (setup ⟨true, true, true⟩).1) (firstIdx isRfInitOp (setup ⟨true, true, true⟩).1)) = true :=
  c3_startup_order ⟨true, true, true⟩ rfl rfl

/-- C4: in a loop iteration where a frame is available but recv reports it
malformed, the trace is exactly a 50 ms pulse of the error LED BI_LEDB (high,
50 ms delay, low) after the two radio queries, with no display operation, no
serial operation and no change to the green LED PWM. -/
theorem c4_bad_frame_only_pulses_error_led (env : LoopEnv)
    (h1 : env.available = true) (h2 : env.recvOk = false) :
    loop_receiver env =
      [ Event.rfAvailable true, Event.rfRecv false,
        Event.digitalWrite Pin.BI_LEDB true, Event.delay 50,
        Event.digitalWrite Pin.BI_LEDB false ] ∧
    (loop_receiver env).all
      (fun e => !(isDisplayOp e) && !(isSerialOp e) && !(isAnalogWriteOp e)) = true := by
  rcases env with ⟨a, rc, rssi⟩
  cases a <;> cases rc <;>
    first
      | exact Bool.noConfusion h1
      | exact Bool.noConfusion h2
      | exact ⟨rfl, rfl⟩

/-- Witness for C4 at a concrete environment. -/
theorem c4_witness :
    loop_receiver ⟨true, false, 0⟩ =
      [ Event.rfAvailable true, Event.rfRecv false,
        Event.digitalWrite Pin.BI_LEDB true, Event.delay 50,
        Event.digitalWrite Pin.BI_LEDB false ] ∧
    (loop_receiver ⟨true, false, 0⟩).all
      (fun e => !(isDisplayOp e) && !(isSerialOp e) && !(isAnalogWriteOp e)) = true :=
  c4_bad_frame_only_pulses_error_led ⟨true, false, 0⟩ rfl rfl

/-- C5: when the display starts and the interlock is not triggered, setup
completes and configures the radio after rf69.init() by setting the frequency
to 868 MHz, then the transmit power, then the GFSK_Rb250Fd250 modulation
profile, then the fixed 16-byte key, in that order. -/
theorem c5_radio_config_order (env : Env)
    (h1 : env.displayBeginOk = true) (h2 : env.butA_high = true) :
    (setup env).2 = Outcome.completed ∧
    Event.setFrequency 868 ∈ (setup env).1 ∧
    Event.setTxPower (-2) true ∈ (setup env).1 ∧
    Event.setModemConfig ModemConfigChoice.GFSK_Rb250Fd250 ∈ (setup env).1 ∧
    Event.setEncryptionKey [1, 2, 3, 4, 5, 6, 7, 8, 1, 2, 3, 4, 5, 6, 7, 8] ∈ (setup env).1 ∧
    rf69Key.length = 16 ∧
    (optLt (firstIdx isRfInitOp (setup env).1) (firstIdx isSetFreqOp (setup env).1) &&
     optLt (firstIdx isSetFreqOp (setup env).1) (firstIdx isSetTxPowerOp (setup env).1) &&
     optLt (firstIdx isSetTxPowerOp (setup env).1) (firstIdx isSetModemOp (setup env).1) &&
     optLt (firstIdx isSetModemOp (setup env).1) (firstIdx isSetKeyOp (setup env).1)) = true := by
  rcases env with ⟨d, b, r⟩
  cases d <;> cases b <;> cases r <;>
    first
      | decide
      | exact Bool.noConfusion h1
      | exact Bool.noConfusion h2

/-- Witness for C5 at a concrete environment. -/
theorem c5_witness :
    (setup ⟨true, true, true⟩).2 = Outcome.completed ∧
    Event.setFrequency 868 ∈ (setup ⟨true, true, true⟩).1 ∧
    Event.setTxPower (-2) true ∈ (setup ⟨true, true, true⟩).1 ∧
    Event.setModemConfig ModemConfigChoice.GFSK_Rb250Fd250 ∈ (setup ⟨true, true, true⟩).1 ∧
    Event.setEncryptionKey [1, 2, 3, 4, 5, 6, 7, 8, 1, 2, 3, 4, 5, 6, 7, 8] ∈ (setup ⟨true, true, true⟩).1 ∧
    rf69Key.length = 16 ∧
    (optLt (firstIdx isRfInitOp (setup ⟨true, true, true⟩).1) (firstIdx isSetFreqOp (setup ⟨true, true, true⟩).1) &&
     optLt (firstIdx isSetFreqOp (setup ⟨true, true, true⟩).1) (firstIdx isSetTxPowerOp (setup ⟨true, true, true⟩).1) &&
     optLt (firstIdx isSetTxPowerOp (setup ⟨true, true, true⟩).1) (firstIdx isSetModemOp (setup ⟨true, true, true⟩).1) &&
     optLt (firstIdx isSetModemOp (setup ⟨true, true, true⟩).1) (firstIdx isSetKeyOp (setup ⟨true, true, true⟩).1)) = true :=
  c5_radio_config_order ⟨true, true, true⟩ rfl rfl

/-- C6: for every successfully received frame, the trace carries exactly one
lastRssi read, exactly one serial println and exactly one numeric display
print, all carrying the same RSSI value of that frame; the lastRssi read
happens after the successful recv, and the number is rendered between the
"RSSI: " and " dBm" fragments. -/
theorem c6_rssi_value_consistency (env : LoopEnv)
    (h1 : env.available = true) (h2 : env.recvOk = true) :
    (loop_receiver env).filter isLastRssiOp = [Event.lastRssi env.rssi] ∧
    (loop_receiver env).filter isSerialPrintlnOp = [Event.serialPrintln env.rssi] ∧
    (loop_receiver env).filter isDisplayPrintIntOp = [Event.displayPrintInt env.rssi] ∧
    optLt (firstIdx isRecvOkOp (loop_receiver env))
      (firstIdx isLastRssiOp (loop_receiver env)) = true ∧
    List.IsInfix
      [ Event.displayPrintStr "RSSI: ", Event.displayPrintInt env.rssi,
        Event.displayPrintlnStr " dBm" ]
      (loop_receiver env) := by
  rcases env with ⟨a, rc, rssi⟩
  cases a <;> cases rc <;>
    first
      | exact Bool.noConfusion h1
      | exact Bool.noConfusion h2
      | exact ⟨rfl, rfl, rfl, rfl,
          ⟨[ Event.rfAvailable true, Event.rfRecv true,
             Event.analogWrite Pin.GRN_LED LED_HIGH,
             Event.lastRssi rssi, Event.serialPrintln rssi,
             Event.displayClear,
             Event.fillRect 0 0 (barwidth rssi) 6 SSD1306_WHITE,
             Event.drawRect 0 0 SCREEN_WIDTH 6 SSD1306_WHITE,
             Event.setCursor 0 9, Event.setTextSize 1,
             Event.setTextColor SSD1306_WHITE ],
           [ Event.displayShow, Event.delay 50,
             Event.analogWrite Pin.GRN_LED LED_LOW ], rfl⟩⟩

/-- Witness for C6 at a concrete environment with RSSI -77. -/
theorem c6_witness :
    (loop_receiver ⟨true, true, -77⟩).filter isLastRssiOp = [Event.lastRssi (-77)] ∧
    (loop_receiver ⟨true, true, -77⟩).filter isSerialPrintlnOp = [Event.serialPrintln (-77)] ∧
    (loop_receiver ⟨true, true, -77⟩).filter isDisplayPrintIntOp = [Event.displayPrintInt (-77)] ∧
    optLt (firstIdx isRecvOkOp (loop_receiver ⟨true, true, -77⟩))
      (firstIdx isLastRssiOp (loop_receiver ⟨true, true, -77⟩)) = true ∧
    List.IsInfix
      [ Event.displayPrintStr "RSSI: ", Event.displayPrintInt (-77),
        Event.displayPrintlnStr " dBm" ]
      (loop_receiver ⟨true, true, -77⟩) :=
  c6_rssi_value_consistency ⟨true, true, -77⟩ rfl rfl

/-- C7: the top-level loop body is extensionally the receiver body, and no
iteration of it, in any environment, performs an operation of the transmitter
body (rf69.send or waitPacketSent), while the transmitter body consists mostly
of such operations — so loop_transmitter is never invoked. -/
theorem c7_loop_is_receiver_only :
    loop = loop_receiver ∧
    (∀ env : LoopEnv, (loop env).all (fun e => !(isTransmitOp e)) = true) ∧
    loop_transmitter.any isTransmitOp = true := by
  refine ⟨rfl, ?_, rfl⟩
  intro env
  rcases env with ⟨a, rc, rssi⟩
  cases a <;> cases rc <;> rfl

/-- C8: the bar width drawn by display_rssi is the unclamped integer linear
map (rssi_val + 100) * SCREEN_WIDTH / 80 (C division truncating toward zero),
it is passed to fillRect unchecked, it exceeds SCREEN_WIDTH for some
rssi_val above -20, and it is negative for some rssi_val below -100. -/
theorem c8_barwidth_unclamped :
    (∀ rssi_val : Int,
      barwidth rssi_val = Int.tdiv ((rssi_val + 100) * SCREEN_WIDTH) 80 ∧
      Event.fillRect 0 0 (barwidth rssi_val) 6 SSD1306_WHITE ∈ display_rssi rssi_val) ∧
    (∃ r : Int, r > -20 ∧ barwidth r > SCREEN_WIDTH) ∧
    (∃ r : Int, r < -100 ∧ barwidth r < 0) := by
  refine ⟨fun rssi_val => ⟨?_, by simp [display_rssi]⟩,
    ⟨-10, by decide, by decide⟩, ⟨-110, by decide, by decide⟩⟩
  simp [barwidth, arduinoMap, SCREEN_WIDTH, Int.sub_neg]

/-- Normalize the environment-returned value recorded inside a call event:
those values are inputs read by the sketch, not actions it performs, so two
traces that differ only in them describe the same sequence of device actions. -/
def forgetResults : Event → Event
  | .displayBegin _ => .displayBegin true
  | .digitalRead p _ => .digitalRead p true
  | .rfInit _ => .rfInit true
  | .rfAvailable _ => .rfAvailable true
  | .rfRecv _ => .rfRecv true
  | .lastRssi _ => .lastRssi 0
  | e => e

/-- C9: if rf69.init() returns false (display started, interlock not
triggered), setup still completes and still calls setFrequency, setTxPower,
setModemConfig and setEncryptionKey; the only difference in performed actions
from a successful init is the absent analogWrite that dimly lights the green
LED (traces are compared with the read results normalized away). -/
theorem c9_init_failure_not_handled (env : Env)
    (h1 : env.displayBeginOk = true) (h2 : env.butA_high = true)
    (h3 : env.rf69InitOk = false) :
    (setup env).2 = Outcome.completed ∧
    Event.setFrequency 868 ∈ (setup env).1 ∧
    Event.setTxPower (-2) true ∈ (setup env).1 ∧
    Event.setModemConfig ModemConfigChoice.GFSK_Rb250Fd250 ∈ (setup env).1 ∧
    Event.setEncryptionKey rf69Key ∈ (setup env).1 ∧
    Event.analogWrite Pin.GRN_LED LED_LOW ∉ (setup env).1 ∧
    Event.analogWrite Pin.GRN_LED LED_LOW ∈ (setup { env with rf69InitOk := true }).1 ∧
    ((setup { env with rf69InitOk := true }).1.map forgetResults).erase
        (Event.analogWrite Pin.GRN_LED LED_LOW)
      = (setup env).1.map forgetResults ∧
    (setup { env with rf69InitOk := true }).2 = Outcome.completed := by
  rcases env with ⟨d, b, r⟩
  cases d <;> cases b <;> cases r <;>
    first
      | decide
      | exact Bool.noConfusion h1
      | exact Bool.noConfusion h2
      | exact Bool.noConfusion h3

/-- Witness for C9 at the concrete environment with a failing radio init. -/
theorem c9_witness :
    (setup ⟨true, true, false⟩).2 = Outcome.completed ∧
    Event.setFrequency 868 ∈ (setup ⟨true, true, false⟩).1 ∧
    Event.setTxPower (-2) true ∈ (setup ⟨true, true, false⟩).1 ∧
    Event.setModemConfig ModemConfigChoice.GFSK_Rb250Fd250 ∈ (setup ⟨true, true, false⟩).1 ∧
    Event.setEncryptionKey rf69Key ∈ (setup ⟨true, true, false⟩).1 ∧
    Event.analogWrite Pin.GRN_LED LED_LOW ∉ (setup ⟨true, true, false⟩).1 ∧
    Event.analogWrite Pin.GRN_LED LED_LOW ∈ (setup { Env.mk true true false with rf69InitOk := true }).1 ∧
    ((setup { Env.mk true true false with rf69InitOk := true }).1.map forgetResults).erase
        (Event.analogWrite Pin.GRN_LED LED_LOW)
      = (setup ⟨true, true, false⟩).1.map forgetResults ∧
    (setup { Env.mk true true false with rf69InitOk := true }).2 = Outcome.completed :=
  c9_init_failure_not_handled ⟨true, true, false⟩ rfl rfl rfl

/-- C10: if display.begin() fails at the very start of setup, the program
diverges immediately in an empty infinite loop: the whole trace is the single
failed displayBegin call, with no pin configuration, LED write, interlock
read, radio operation or serial initialization. -/
theorem c10_display_fail_halts_everything (env : Env)
    (h : env.displayBeginOk = false) :
    setup env = ([Event.displayBegin false], Outcome.halted []) ∧
    (setup env).1.all (fun e => !(isPinRadioOrSerialOp e)) = true := by
  rcases env with ⟨d, b, r⟩
  cases d <;> cases b <;> cases r <;>
    first
      | decide
      | exact Bool.noConfusion h

/-- Witness for C10 at a concrete environment with a failing display init. -/
theorem c10_witness :
    setup ⟨false, true, true⟩ = ([Event.displayBegin false], Outcome.halted []) ∧
    (setup ⟨false, true, true⟩).1.all (fun e => !(isPinRadioOrSerialOp e)) = true :=
  c10_display_fail_halts_everything ⟨false, true, true⟩ rfl
